import Mathlib

/-!
Verification development for the URDF-to-scene exporter
(`mani_skill/assets/robots/SO101/load_to_rerun.py`, class `URDFLogger`).

The program converts a kinematic tree (URDF links and joints) into entity
paths, rigid transforms and mesh records submitted to a scene sink
(`rerun`).  External collaborators (the URDF parser's chain lookup, the
scipy rotation routines, the trimesh mesh loader, the image loader and the
scene sink itself) are modelled as interfaces; everything the exporter
itself computes is embedded as executable Lean definitions over `ℚ`.

Numbers: the Python code works with machine floats; the embedding uses `ℚ`
for the exact algebraic content (vector arithmetic, quaternion products).
The scipy calls whose results are irrational (Euler/rotvec to quaternion,
vector norm, random rotation sampling) are modelled as fields of an
abstract `Ext` interface, exactly at the call boundary the source uses.
-/

namespace LoadToRerun

/-- 3-vector over ℚ (models a numpy array of length 3). -/
structure Vec3 where
  x : ℚ
  y : ℚ
  z : ℚ
deriving DecidableEq, Repr

/-- Quaternion in scipy's `xyzw` component order. -/
structure Quat where
  x : ℚ
  y : ℚ
  z : ℚ
  w : ℚ
deriving DecidableEq, Repr

def vzero : Vec3 := ⟨0, 0, 0⟩

/-- Componentwise vector addition (numpy `+`). -/
def vadd (a b : Vec3) : Vec3 := ⟨a.x + b.x, a.y + b.y, a.z + b.z⟩

/-- Scalar multiplication `c • v`. -/
def vsmul (c : ℚ) (v : Vec3) : Vec3 := ⟨c * v.x, c * v.y, c * v.z⟩

/-- Right scalar multiplication `v * c` (numpy `array * scalar`). -/
def vmuls (v : Vec3) (c : ℚ) : Vec3 := ⟨v.x * c, v.y * c, v.z * c⟩

/-- Componentwise division by a scalar (numpy `array / scalar`). -/
def vdivs (v : Vec3) (c : ℚ) : Vec3 := ⟨v.x / c, v.y / c, v.z / c⟩

/-- Squared euclidean norm of a quaternion. -/
def normSq (q : Quat) : ℚ := q.x * q.x + q.y * q.y + q.z * q.z + q.w * q.w

/-- scipy's identity quaternion `[0, 0, 0, 1]` (xyzw). -/
def qid : Quat := ⟨0, 0, 0, 1⟩

/-- Quaternion conjugate. -/
def qconj (q : Quat) : Quat := ⟨-q.x, -q.y, -q.z, q.w⟩

/-- Hamilton product in xyzw order: `quatMul p q` is the quaternion of the
rotation "q applied first, then p", matching scipy's `p * q` composition of
stored (unit) quaternions. -/
def quatMul (p q : Quat) : Quat :=
  ⟨p.w * q.x + q.w * p.x + (p.y * q.z - p.z * q.y),
   p.w * q.y + q.w * p.y + (p.z * q.x - p.x * q.z),
   p.w * q.z + q.w * p.z + (p.x * q.y - p.y * q.x),
   p.w * q.w - (p.x * q.x + p.y * q.y + p.z * q.z)⟩

/-- Vector part of the quaternion sandwich `q ⬝ (v, 0) ⬝ conj q`: for a unit
quaternion this is the rotated image of `v`. -/
def sandwichVec (q : Quat) (v : Vec3) : Vec3 :=
  let p := quatMul (quatMul q ⟨v.x, v.y, v.z, 0⟩) (qconj q)
  ⟨p.x, p.y, p.z⟩

/-- Model of scipy's `Rotation.from_quat(q).apply(v)`.  scipy normalises the
quaternion on construction and applies the rotation matrix of the
normalised quaternion; since the sandwich form is homogeneous of degree 2
in `q`, that matrix-vector product equals `sandwichVec q v / normSq q` for
every nonzero `q` (and scipy raises on a zero-norm quaternion before this
point).  For a unit quaternion the factor is 1. -/
def applyQuat (q : Quat) (v : Vec3) : Vec3 :=
  vsmul (normSq q)⁻¹ (sandwichVec q v)

/-- Pure quaternion action on a vector — the specification's `rotate`
operation (unit-quaternion conjugation). -/
def specRotate (q : Quat) (v : Vec3) : Vec3 := sandwichVec q v

/-- Python exception kinds the exporter can raise. -/
inductive PyError where
  /-- A local variable was read before assignment; payload is the variable
  name. -/
  | unboundLocalError (var : String)
  /-- `raise NotImplementedError(msg)`. -/
  | notImplementedError (msg : String)
  /-- A `ValueError` raised inside an external library call. -/
  | valueError (msg : String)
deriving DecidableEq, Repr

/-- Result of a Python computation: a value or a raised exception. -/
inductive Pyex (α : Type) where
  | ok (val : α)
  | err (e : PyError)
deriving DecidableEq, Repr

/-- `urdf_parser.Pose`: optional translation `xyz` and optional
roll-pitch-yaw rotation `rpy`. -/
structure Pose where
  xyz : Option Vec3
  rpy : Option Vec3
deriving DecidableEq, Repr

/-- `rr.Transform3D`: every component is optional (`None` when the keyword
was not passed to the constructor). -/
structure Transform3D where
  translation : Option Vec3
  quaternion : Option Quat
  scale : Option Vec3
deriving DecidableEq, Repr

/-- `rr.Transform3D()` with no arguments: all components absent.  Per the
data model this value denotes the identity transform (zero translation,
identity rotation) and is distinct from the `none` of `Option Transform3D`
which denotes "no transform". -/
def identityTransform3D : Transform3D := ⟨none, none, none⟩

/-- 3×3 matrix as three rows (payload of `R.random().as_matrix()`). -/
abbrev Mat3 := Vec3 × Vec3 × Vec3

/-- `urdf_parser` geometry variants.  Only `mesh` carries data the exporter
reads (`filename`, optional `scale`); the dimensions of the primitive
shapes are never read by the exporter and are elided. -/
inductive Geometry where
  | mesh (filename : String) (scale : Option Vec3)
  | box
  | cylinder
  | sphere
deriving DecidableEq, Repr

def Geometry.isMesh : Geometry → Bool
  | .mesh _ _ => true
  | _ => false

/-- `urdf_parser` material texture reference. -/
structure Texture where
  filename : String
deriving DecidableEq, Repr

/-- `urdf_parser` flat material color; `rgba` is the raw float list. -/
structure MaterialColor where
  rgba : List ℚ
deriving DecidableEq, Repr

/-- `urdf_parser.Material`: optional flat color and optional texture. -/
structure Material where
  color : Option MaterialColor
  texture : Option Texture
deriving DecidableEq, Repr

/-- `urdf_parser.Visual`: one renderable attachment of a link. -/
structure Visual where
  geometry : Geometry
  origin : Option Pose
  material : Option Material
deriving DecidableEq, Repr

/-- `urdf_parser.Joint`.  `type` is the raw URDF type string, `child` the
child link name, `axis` the optional motion axis, `origin` the optional
pose offset. -/
structure Joint where
  name : String
  type : String
  child : String
  axis : Option Vec3
  origin : Option Pose
deriving DecidableEq, Repr

/-- The visual representation attached to a loaded trimesh: color visuals
carrying vertex colors, texture visuals carrying the opened image (modelled
by its resolved path), or anything else. -/
inductive TrimeshVisual where
  | colorVisuals (vertexColors : List ℚ)
  | textureVisuals (image : String)
  | otherVisual
deriving DecidableEq, Repr

/-- A loaded `trimesh.Trimesh`.  Vertex/face/normal buffers are external
data blobs; they are modelled by labels, since the exporter only forwards
them. -/
structure Trimesh where
  vertices : String
  faces : String
  vertexNormals : String
  visual : TrimeshVisual
deriving DecidableEq, Repr

/-- Result of `trimesh.load_mesh`: a single mesh or a multi-mesh scene. -/
inductive LoadedMesh where
  | single (m : Trimesh)
  | scene (tag : String)
deriving DecidableEq, Repr

/-- One record submitted to the scene sink (`rr.log`). -/
inductive Record where
  /-- `rr.log(path, transform3d)`; `static` is the `static=True` flag. -/
  | transform (path : String) (t : Transform3D) (static : Bool)
  /-- `rr.log(path, rr.Mesh3D(...), static=True)`.  `albedoTexture` and
  `vertexTexcoords` are the placeholder slots, always `none` in the
  source. -/
  | mesh3D (path : String) (vertices faces normals : String)
      (vertexColors : Option (List ℚ))
      (albedoTexture vertexTexcoords : Option String) (static : Bool)
  /-- `rr.log(path, matrix)` with a raw 3×3 rotation matrix payload
  (randomized mode). -/
  | raw (path : String) (m : Mat3)
deriving DecidableEq, Repr

/-- External collaborators: scipy rotation routines, numpy norm, the random
rotation sampler (as a stream indexed by draw number), and the trimesh
loader. -/
structure Ext where
  /-- `st.Rotation.from_euler("xyz", rpy).as_quat()`. -/
  fromEulerXYZQuat : Vec3 → Quat
  /-- `st.Rotation.from_rotvec(r).as_quat()`. -/
  fromRotvecQuat : Vec3 → Quat
  /-- `np.linalg.norm(v)`. -/
  norm : Vec3 → ℚ
  /-- `R.random().as_matrix()`; the `i`-th independent draw. -/
  randomRot : ℕ → Mat3
  /-- `trimesh.load_mesh(path)`. -/
  loadMesh : String → LoadedMesh

/-- `URDFLogger.origin_to_transform`.  The source assigns the locals
`translation` / `rotation` only under `origin.xyz is not None` /
`origin.rpy is not None` and never initialises them, then evaluates
`if translation is not None and rotation is not None`.  Reading an
unassigned local raises `UnboundLocalError`; `translation` is read first,
so a missing `xyz` reports `translation`, and a present `xyz` with a
missing `rpy` reports `rotation`. -/
def origin_to_transform (ext : Ext) (origin : Option Pose) :
    Pyex (Option Transform3D) :=
  match origin with
  | none => .ok none
  | some o =>
    match o.xyz, o.rpy with
    | some t, some r =>
        .ok (some ⟨some t, some (ext.fromEulerXYZQuat r), none⟩)
    | none, _ => .err (.unboundLocalError "translation")
    | some _, none => .err (.unboundLocalError "rotation")

/-- `URDFLogger._joint_motion_transform`.  The axis defaults to the unit X
axis; the motion vector is `axis / np.linalg.norm(axis) * value`.  There is
no guard on the axis magnitude: the division is performed unconditionally
and the function never raises. -/
def jointMotionTransform (ext : Ext) (joint : Joint) (value : ℚ) :
    Transform3D :=
  let axis := joint.axis.getD ⟨1, 0, 0⟩
  if joint.type = "revolute" ∨ joint.type = "continuous" then
    ⟨none, some (ext.fromRotvecQuat (vmuls (vdivs axis (ext.norm axis)) value)),
     none⟩
  else if joint.type = "prismatic" then
    ⟨some (vmuls (vdivs axis (ext.norm axis)) value), none, none⟩
  else
    identityTransform3D

/-- `URDFLogger._compose`.  `None` short-circuits; otherwise missing
translations default to zero and missing quaternions to the identity, the
two quaternions are fed to `st.Rotation.from_quat` (which raises a
`ValueError` on a zero-norm quaternion and normalises its input — a no-op
on the unit quaternions of the data model), and the result is
`Transform3D(translation = t1 + r1.apply(t2), quaternion = (r1*r2).as_quat())`,
with no scale. -/
def compose (t1 t2 : Option Transform3D) : Pyex (Option Transform3D) :=
  match t1 with
  | none => .ok t2
  | some u1 =>
    match t2 with
    | none => .ok t1
    | some u2 =>
      let trans1 := u1.translation.getD vzero
      let trans2 := u2.translation.getD vzero
      let quat1 := u1.quaternion.getD qid
      let quat2 := u2.quaternion.getD qid
      if normSq quat1 = 0 ∨ normSq quat2 = 0 then
        .err (.valueError "Found zero norm quaternions in quat.")
      else
        .ok (some ⟨some (vadd trans1 (applyQuat quat1 trans2)),
                   some (quatMul quat1 quat2), none⟩)

/-- `urdf_parser.Link`: a named link with its visuals. -/
structure Link where
  name : String
  visuals : List Visual
deriving DecidableEq, Repr

/-- The parsed URDF model, as the exporter consumes it.  `chainTo name`
models the external `urdf.get_chain(root, name)` lookup: the ordered
root-to-link chain with link and joint names interleaved
(link, joint, link, …, link — link names at even indices, joint names at
odd indices), defined for every link reachable from the root. -/
structure URDFModel where
  rootName : String
  joints : List Joint
  links : List Link
  chainTo : String → List String

/-- Python slice `[0::2]`: every other element starting at index 0. -/
def everyOther {α : Type} : List α → List α
  | [] => []
  | [a] => [a]
  | a :: _ :: rest => a :: everyOther rest

/-- `URDFLogger.link_entity_path`: slice the root-to-link chain with
`[0::2]` (keeping the link names), join with `/`, and prepend the
configured prefix by direct concatenation when it is non-empty (Python
truthiness of the string) or a leading `/` otherwise. -/
def link_entity_path (pfx : String) (model : URDFModel) (link : Link) :
    String :=
  let linkNames := everyOther (model.chainTo link.name)
  if pfx ≠ "" then pfx ++ String.intercalate "/" linkNames
  else "/" ++ String.intercalate "/" linkNames

/-- `URDFLogger.joint_entity_path`: the source slices the root-to-child
chain with `[0::2]` — the same slice as for links, despite the adjacent
comment "skip the links" — so it keeps the link names, not the joint
names. -/
def joint_entity_path (pfx : String) (model : URDFModel) (joint : Joint) :
    String :=
  let jointNames := everyOther (model.chainTo joint.child)
  if pfx ≠ "" then pfx ++ String.intercalate "/" jointNames
  else "/" ++ String.intercalate "/" jointNames

/-- Specification reading of the entity path of a link: keep the names at
even indices (stride 2 from index 0) of the root-to-link chain, join with
`/`, and apply the prefix rule. -/
def specLinkEntityPath (pfx : String) (chain : List String) : String :=
  let names := (chain.enum.filter (fun p => p.1 % 2 = 0)).map Prod.snd
  if pfx ≠ "" then pfx ++ String.intercalate "/" names
  else "/" ++ String.intercalate "/" names

/-- Specification reading of the entity path of a joint: keep the names at
odd indices (stride 2 from index 1, skipping the link names) of the
root-to-child chain, join with `/`, and apply the prefix rule. -/
def specJointEntityPath (pfx : String) (chain : List String) : String :=
  let names := (chain.enum.filter (fun p => p.1 % 2 = 1)).map Prod.snd
  if pfx ≠ "" then pfx ++ String.intercalate "/" names
  else "/" ++ String.intercalate "/" names

/-- The record stream emitted by one exporter call together with the
exception, if any, that aborted it.  `records` are exactly the `rr.log`
calls that executed before the exception was raised. -/
structure EmitResult where
  records : List Record
  error : Option PyError
deriving DecidableEq, Repr

/-- Sequence a list of emission results the way consecutive Python
statements behave: records accumulate in order until the first raised
exception, which aborts the rest. -/
def seqEmits : List EmitResult → EmitResult
  | [] => ⟨[], none⟩
  | r :: rest =>
    match r.error with
    | some e => ⟨r.records, some e⟩
    | none =>
      let t := seqEmits rest
      ⟨r.records ++ t.records, t.error⟩

/-- `URDFLogger.log_trimesh`: requires color visuals (anything else raises
before any emission), then logs the `Mesh3D` record (static) and, when a
transform is present, the transform record (static). -/
def log_trimesh (path : String) (mesh : Trimesh)
    (transform : Option Transform3D) : EmitResult :=
  match mesh.visual with
  | .colorVisuals vc =>
    let meshRec : Record :=
      .mesh3D path mesh.vertices mesh.faces mesh.vertexNormals (some vc)
        none none true
    match transform with
    | some t => ⟨[meshRec, .transform path t true], none⟩
    | none => ⟨[meshRec], none⟩
  | _ => ⟨[], some (.notImplementedError "Only color visuals are supported.")⟩

/-- The material-resolution step of `URDFLogger.log_visual`: when a
material is present and the mesh does not already carry texture visuals,
a flat color overrides the visuals with uniform vertex colors, else a
texture reference replaces them with texture visuals opened from
`root_path / material.texture.filename`. -/
def applyMaterial (rootPath : String) (material : Option Material)
    (mesh : Trimesh) : Trimesh :=
  match material with
  | none => mesh
  | some m =>
    match mesh.visual with
    | .textureVisuals _ => mesh
    | _ =>
      match m.color with
      | some c => { mesh with visual := .colorVisuals c.rgba }
      | none =>
        match m.texture with
        | some tex =>
          { mesh with visual := .textureVisuals (rootPath ++ "/" ++ tex.filename) }
        | none => mesh

/-- `URDFLogger.log_visual`.  In source order: the material is read, the
origin is converted (which can raise `UnboundLocalError`, see
`origin_to_transform`), then non-mesh geometry raises
`NotImplementedError("Only mesh geometries are supported.")`; for mesh
geometry the file is loaded, a geometry scale is attached to the transform
(creating a scale-only transform if none existed), a multi-mesh scene
raises `NotImplementedError("Only single mesh geometries are supported.")`,
and otherwise the material is applied and `log_trimesh` emits the
records.  Every raise happens before any record is emitted. -/
def log_visual (ext : Ext) (rootPath path : String) (visual : Visual) :
    EmitResult :=
  match origin_to_transform ext visual.origin with
  | .err e => ⟨[], some e⟩
  | .ok transform =>
    match visual.geometry with
    | .mesh filename meshScale =>
      let meshOrScene := ext.loadMesh (rootPath ++ "/" ++ filename)
      let transform2 : Option Transform3D :=
        match meshScale with
        | some s =>
          match transform with
          | some t => some { t with scale := some s }
          | none => some ⟨none, none, some s⟩
        | none => transform
      match meshOrScene with
      | .single mesh =>
        log_trimesh path (applyMaterial rootPath visual.material mesh)
          transform2
      | .scene _ =>
        ⟨[], some (.notImplementedError "Only single mesh geometries are supported.")⟩
    | _ => ⟨[], some (.notImplementedError "Only mesh geometries are supported.")⟩

/-- `URDFLogger.log_link`: log every visual of the link at the sub-path
`.../visual_{i}`.  `rootPath` is the logger's `root_path` (the directory of
the URDF file), used to resolve mesh and texture file names. -/
def log_link (ext : Ext) (rootPath pfx : String) (model : URDFModel)
    (link : Link) : EmitResult :=
  let path := link_entity_path pfx model link
  seqEmits (link.visuals.enum.map
    (fun p => log_visual ext rootPath (path ++ "/visual_" ++ toString p.1) p.2))

/-- `URDFLogger.log_joint`: convert the joint origin (which can raise) and,
when the conversion yields a transform, log it (non-static). -/
def log_joint (ext : Ext) (path : String) (joint : Joint) : EmitResult :=
  match origin_to_transform ext joint.origin with
  | .err e => ⟨[], some e⟩
  | .ok none => ⟨[], none⟩
  | .ok (some t) => ⟨[.transform path t false], none⟩

/-- `URDFLogger.log`, the orchestrator.  `joint_stats == "Original"`: log
every joint's origin transform, then every link's visuals.  Any other mode
string: for each joint, draw one fresh random rotation matrix (the `i`-th
draw of the external sampler for the `i`-th joint) and log it raw at the
joint's entity path; nothing else is emitted. -/
def logModel (ext : Ext) (rootPath pfx : String) (model : URDFModel)
    (jointStats : String) : EmitResult :=
  if jointStats = "Original" then
    seqEmits
      ((model.joints.map
          (fun j => log_joint ext (joint_entity_path pfx model j) j)) ++
       (model.links.map (fun l => log_link ext rootPath pfx model l)))
  else
    ⟨model.joints.enum.map
      (fun p => .raw (joint_entity_path pfx model p.2) (ext.randomRot p.1)),
     none⟩

/-- True when `origin_to_transform` completes without raising: the origin
is absent, or both its fields are present. -/
def originConverts : Option Pose → Bool
  | none => true
  | some p => p.xyz.isSome && p.rpy.isSome

/-- The motion axis the source uses: the joint's axis if present, else the
unit X axis. -/
def axisOrDefault (j : Joint) : Vec3 := j.axis.getD ⟨1, 0, 0⟩

/-- The specification's normalized axis: the axis scaled by the inverse of
its norm (the norm itself is computed by the external numerics). -/
def specNormalize (ext : Ext) (a : Vec3) : Vec3 := vsmul (ext.norm a)⁻¹ a

/-- Concrete external-collaborator instance used to instantiate witnesses.
The claims proved below hold for every `Ext`; this one just makes them
evaluable on concrete inputs. -/
def extStub : Ext where
  fromEulerXYZQuat := fun v => ⟨v.x, v.y, v.z, 1⟩
  fromRotvecQuat := fun v => ⟨v.x, v.y, v.z, 1⟩
  norm := fun v => v.x + v.y + v.z
  randomRot := fun i => (⟨1, 0, 0⟩, ⟨0, 1, 0⟩, ⟨0, 0, (i : ℚ)⟩)
  loadMesh := fun _ => .single ⟨"V", "F", "N", .colorVisuals [1, 1, 1, 1]⟩

/-- External-collaborator instance whose mesh loader resolves every file to
a multi-mesh scene. -/
def extScene : Ext := { extStub with loadMesh := fun _ => .scene "multi" }

/-- A joint named `j1` from `base` to `arm` (used with `chainBase`). -/
def jC1 : Joint := ⟨"j1", "revolute", "arm", none, none⟩

/-- A link named `arm`. -/
def lArm : Link := ⟨"arm", []⟩

/-- Root-to-link chain lookup of the two-link tree `base --j1--> arm`. -/
def chainBase (n : String) : List String :=
  if n = "arm" then ["base", "j1", "arm"] else [n]

/-- The two-link model `base --j1--> arm`. -/
def modelBase : URDFModel := ⟨"base", [jC1], [lArm], chainBase⟩

/-- A model with different bookkeeping but the same root-to-`arm` chain as
`modelBase` (used to check topology-only dependence). -/
def modelBase' : URDFModel :=
  ⟨"zz", [], [], fun n => if n = "arm" then ["base", "j1", "arm"] else ["x"]⟩

/-- A revolute joint with a zero-magnitude axis. -/
def jZeroRev : Joint := ⟨"jz", "revolute", "c", some vzero, none⟩

/-- A prismatic joint with a zero-magnitude axis. -/
def jZeroPris : Joint := ⟨"jp", "prismatic", "c", some vzero, none⟩

/-- A revolute joint with axis `(0,0,1)`. -/
def jRev : Joint := ⟨"jr", "revolute", "c", some ⟨0, 0, 1⟩, none⟩

/-- A prismatic joint with axis `(1,0,0)`. -/
def jPris : Joint := ⟨"jp2", "prismatic", "c", some ⟨1, 0, 0⟩, none⟩

/-- A fixed joint without an axis. -/
def jFix : Joint := ⟨"jf", "fixed", "c", none, none⟩

/-- A pose with both translation and rotation present. -/
def pFull : Pose := ⟨some ⟨1, 2, 3⟩, some ⟨0, 0, 0⟩⟩

/-- A box-geometry visual whose origin has a translation but no
rotation. -/
def vBoxBad : Visual := ⟨.box, some ⟨some vzero, none⟩, none⟩

/-- A box-geometry visual without an origin. -/
def vBoxOk : Visual := ⟨.box, none, none⟩

/-- A mesh-geometry visual whose origin has a translation but no
rotation. -/
def vMeshBad : Visual := ⟨.mesh "m.obj" none, some ⟨some vzero, none⟩, none⟩

/-- A mesh-geometry visual without an origin. -/
def vMeshOk : Visual := ⟨.mesh "m.obj" none, none, none⟩

/-- A transform with translation `(1,2,3)` and the identity quaternion. -/
def u1c : Transform3D := ⟨some ⟨1, 2, 3⟩, some qid, none⟩

/-- A transform with translation `(4,5,6)` and a half-turn about X. -/
def u2c : Transform3D := ⟨some ⟨4, 5, 6⟩, some ⟨1, 0, 0, 0⟩, none⟩

/-! ## Helper lemmas -/

/-- Peeling one element off a Python `[0::2]` slice. -/
theorem everyOther_cons {α : Type} (a : α) (rest : List α) :
    everyOther (a :: rest) = a :: everyOther rest.tail := by
  cases rest <;> rfl

/-- Filtering the even positions of an enumeration starting at `n` yields
the `[0::2]` slice of the list (of its tail when `n` is odd). -/
theorem enumFrom_even_filter {α : Type} :
    ∀ (l : List α) (n : ℕ),
      (((List.enumFrom n l).filter (fun p => p.1 % 2 = 0)).map Prod.snd) =
        if n % 2 = 0 then everyOther l else everyOther l.tail := by
  intro l
  induction l with
  | nil => intro n; cases Nat.decEq (n % 2) 0 <;> simp [everyOther]
  | cons a rest ih =>
    intro n
    by_cases h : n % 2 = 0
    · have h1 : ¬ (n + 1) % 2 = 0 := by omega
      have := ih (n + 1)
      rw [if_neg h1] at this
      simp [List.enumFrom, List.filter, h, this, everyOther_cons]
    · have h1 : (n + 1) % 2 = 0 := by omega
      have := ih (n + 1)
      rw [if_pos h1] at this
      simp [List.enumFrom, List.filter, h, this, everyOther_cons]

/-- The even-index filter of `List.enum` is exactly the `[0::2]` slice. -/
theorem enum_even_filter {α : Type} (l : List α) :
    ((l.enum.filter (fun p => p.1 % 2 = 0)).map Prod.snd) = everyOther l := by
  have h := enumFrom_even_filter l 0
  simpa using h

/-- numpy's `axis / n * v` equals the specification's `v • (n⁻¹ • axis)`. -/
theorem vmuls_vdivs_eq (a : Vec3) (n v : ℚ) :
    vmuls (vdivs a n) v = vsmul v (vsmul n⁻¹ a) := by
  simp only [vmuls, vdivs, vsmul, Vec3.mk.injEq]
  refine ⟨by ring, by ring, by ring⟩

/-- For a unit quaternion, scipy's matrix application coincides with the
pure quaternion conjugation action. -/
theorem applyQuat_unit {q : Quat} (h : normSq q = 1) (v : Vec3) :
    applyQuat q v = specRotate q v := by
  simp [applyQuat, specRotate, h, vsmul]

/-! ## Claim theorems -/

/-- Claim C1 (evidence of the code bug): in the tree `base --j1--> arm`,
the joint entity path operation applied to `j1` returns the link names
`"/base/arm"` (slice `[0::2]` of the chain), whereas the specified
stride-2-from-index-1 selection of joint names yields `"/j1"`; the two
disagree.  The source's own comment says "skip the links", which the
`[0::2]` slice fails to do. -/
theorem c1_joint_entity_path_keeps_link_names :
    joint_entity_path "" modelBase jC1 = "/base/arm" ∧
    specJointEntityPath "" (modelBase.chainTo jC1.child) = "/j1" ∧
    joint_entity_path "" modelBase jC1 ≠
      specJointEntityPath "" (modelBase.chainTo jC1.child) := by
  refine ⟨by decide, by decide, by decide⟩

/-- Claim C2 (amended): the origin conversion returns the "no transform"
absence only when the origin itself is absent; it returns a constructed
transform (the given translation plus the intrinsic-XYZ Euler quaternion)
exactly when both translation and rotation fields are present; and it
raises `UnboundLocalError` whenever the origin is present with at least
one field missing, because the locals are never initialised. -/
theorem c2_origin_to_transform_behavior (ext : Ext) (o : Option Pose) :
    (origin_to_transform ext o = .ok none ↔ o = none) ∧
    ((∃ t, origin_to_transform ext o = .ok (some t)) ↔
      ∃ p, o = some p ∧ p.xyz.isSome ∧ p.rpy.isSome) ∧
    ((∃ e, origin_to_transform ext o = .err e) ↔
      ∃ p, o = some p ∧ (p.xyz = none ∨ p.rpy = none)) ∧
    (∀ p t r, o = some p → p.xyz = some t → p.rpy = some r →
      origin_to_transform ext o =
        .ok (some ⟨some t, some (ext.fromEulerXYZQuat r), none⟩)) := by
  obtain _ | ⟨x, r⟩ := o
  · simp [origin_to_transform]
  · obtain _ | xv := x <;> obtain _ | rv := r <;>
      simp [origin_to_transform] <;>
      (intro p t r' hp h1 h2; subst hp; simp_all)

/-- Claim C2 (counterexample): an origin with both fields empty does not
yield the claimed "no transform" absence — the code raises
`UnboundLocalError` on the uninitialised `translation` local; an origin
with only a translation likewise raises on `rotation` instead of
returning a constructed transform. -/
theorem c2_counterexample :
    origin_to_transform extStub (some ⟨none, none⟩) =
      .err (.unboundLocalError "translation") ∧
    origin_to_transform extStub (some ⟨some ⟨1, 2, 3⟩, none⟩) =
      .err (.unboundLocalError "rotation") ∧
    origin_to_transform extStub (some ⟨none, none⟩) ≠ .ok none := by
  refine ⟨rfl, rfl, by decide⟩

/-- Claim C2 (witness): the amended theorem applied to a fully populated
origin. -/
theorem c2_witness :
    pFull.xyz = some ⟨1, 2, 3⟩ ∧
    origin_to_transform extStub (some pFull) =
      .ok (some ⟨some ⟨1, 2, 3⟩, some (extStub.fromEulerXYZQuat ⟨0, 0, 0⟩),
        none⟩) :=
  ⟨rfl, (c2_origin_to_transform_behavior extStub (some pFull)).2.2.2
    pFull ⟨1, 2, 3⟩ ⟨0, 0, 0⟩ rfl rfl rfl⟩

/-- Claim C3 (evidence of the code bug): on a joint whose axis is the zero
vector, the motion transform silently computes the zero-magnitude branch —
dividing the axis by its zero norm and returning a constructed transform —
for every external numerics instance; no `DegenerateAxisError` (or any
error at all) is raised, since the function has no failure path. -/
theorem c3_zero_axis_silently_computed (ext : Ext) (v : ℚ) :
    jointMotionTransform ext jZeroRev v =
      ⟨none, some (ext.fromRotvecQuat vzero), none⟩ ∧
    jointMotionTransform ext jZeroPris v = ⟨some vzero, none, none⟩ := by
  constructor <;>
    simp [jointMotionTransform, jZeroRev, jZeroPris, vmuls, vdivs, vzero]

/-- Claim C4: for every joint and scalar value, the motion transform of a
revolute or continuous joint is the rotation-only transform whose
quaternion is the rotation-vector quaternion of `value` times the
normalized axis (translation absent); for a prismatic joint it is the
translation-only transform `value • normalized axis` (rotation absent);
for a fixed or any other kind it is the identity transform (a constructed
value, not the absence value); a missing axis defaults to the unit X
axis. -/
theorem c4_joint_motion_transform_cases (ext : Ext) (j : Joint) (v : ℚ) :
    ((j.type = "revolute" ∨ j.type = "continuous") →
      jointMotionTransform ext j v =
        ⟨none, some (ext.fromRotvecQuat
          (vsmul v (specNormalize ext (axisOrDefault j)))), none⟩) ∧
    (j.type = "prismatic" →
      jointMotionTransform ext j v =
        ⟨some (vsmul v (specNormalize ext (axisOrDefault j))), none, none⟩) ∧
    (j.type ≠ "revolute" → j.type ≠ "continuous" → j.type ≠ "prismatic" →
      jointMotionTransform ext j v = identityTransform3D) := by
  refine ⟨?_, ?_, ?_⟩
  · intro h
    simp only [jointMotionTransform]
    rw [if_pos h, vmuls_vdivs_eq]
    rfl
  · intro h
    simp only [jointMotionTransform]
    rw [if_neg (by rw [h]; decide), if_pos h, vmuls_vdivs_eq]
    rfl
  · intro h1 h2 h3
    simp only [jointMotionTransform]
    rw [if_neg (not_or.mpr ⟨h1, h2⟩), if_neg h3]

/-- Claim C4 (witness): the three cases evaluated on concrete revolute,
prismatic and fixed joints. -/
theorem c4_witness :
    (jRev.type = "revolute" ∨ jRev.type = "continuous") ∧
    jointMotionTransform extStub jRev 2 =
      ⟨none, some (extStub.fromRotvecQuat
        (vsmul 2 (specNormalize extStub (axisOrDefault jRev)))), none⟩ ∧
    jointMotionTransform extStub jPris 3 =
      ⟨some (vsmul 3 (specNormalize extStub (axisOrDefault jPris))), none,
        none⟩ ∧
    jointMotionTransform extStub jFix 1 = identityTransform3D :=
  ⟨Or.inl rfl,
   (c4_joint_motion_transform_cases extStub jRev 2).1 (Or.inl rfl),
   (c4_joint_motion_transform_cases extStub jPris 3).2.1 rfl,
   (c4_joint_motion_transform_cases extStub jFix 1).2.2
     (by decide) (by decide) (by decide)⟩

/-- Claim C5: composition with the "no transform" absence value
short-circuits to the other argument (including absence with absence), and
in particular never raises and performs no numeric work. -/
theorem c5_compose_short_circuit (t : Option Transform3D) :
    compose none t = .ok t ∧ compose t none = .ok t := by
  constructor
  · rfl
  · cases t <;> rfl

/-- Claim C6: for two present transforms whose effective quaternions are
unit (a missing translation defaulting to zero, a missing rotation to the
identity quaternion), the composition has translation
`t1.translation + rotate(t1.rotation, t2.translation)` (with `rotate` the
unit-quaternion conjugation action) and rotation the quaternion product
`t1.rotation ⬝ t2.rotation` in that order, and carries no scale. -/
theorem c6_compose_formula (u1 u2 : Transform3D)
    (hq1 : normSq (u1.quaternion.getD qid) = 1)
    (hq2 : normSq (u2.quaternion.getD qid) = 1) :
    compose (some u1) (some u2) =
      .ok (some ⟨some (vadd (u1.translation.getD vzero)
          (specRotate (u1.quaternion.getD qid) (u2.translation.getD vzero))),
        some (quatMul (u1.quaternion.getD qid) (u2.quaternion.getD qid)),
        none⟩) := by
  simp only [compose]
  rw [if_neg (by rw [hq1, hq2]; norm_num), applyQuat_unit hq1]

/-- Claim C6 (witness): the composition formula evaluated on two concrete
unit-quaternion transforms. -/
theorem c6_witness :
    normSq (u1c.quaternion.getD qid) = 1 ∧
    normSq (u2c.quaternion.getD qid) = 1 ∧
    compose (some u1c) (some u2c) =
      .ok (some ⟨some (vadd (u1c.translation.getD vzero)
          (specRotate (u1c.quaternion.getD qid) (u2c.translation.getD vzero))),
        some (quatMul (u1c.quaternion.getD qid) (u2c.quaternion.getD qid)),
        none⟩) :=
  ⟨by simp [u1c, qid, normSq], by simp [u2c, qid, normSq],
   c6_compose_formula u1c u2c (by simp [u1c, qid, normSq])
     (by simp [u2c, qid, normSq])⟩

/-- Claim C7: the link entity path equals the specification's reading —
the even-index (stride 2 from index 0) names of the root-to-link chain
joined with `/`, with a non-empty configured prefix prepended by direct
concatenation and a leading `/` otherwise — and it depends only on the
chain the tree topology assigns to the link, hence is stable across
repeated calls. -/
theorem c7_link_entity_path_spec (pfx : String) (model : URDFModel)
    (link : Link) :
    link_entity_path pfx model link =
      specLinkEntityPath pfx (model.chainTo link.name) ∧
    ∀ model' : URDFModel, model'.chainTo link.name = model.chainTo link.name →
      link_entity_path pfx model' link = link_entity_path pfx model link := by
  constructor
  · simp only [link_entity_path, specLinkEntityPath, enum_even_filter]
  · intro m' h
    simp only [link_entity_path, h]

/-- Claim C7 (witness): the path equation and topology-only dependence
evaluated on the concrete tree `base --j1--> arm` with prefix `"xx"`. -/
theorem c7_witness :
    modelBase'.chainTo lArm.name = modelBase.chainTo lArm.name ∧
    link_entity_path "xx" modelBase lArm =
      specLinkEntityPath "xx" (modelBase.chainTo lArm.name) ∧
    link_entity_path "xx" modelBase' lArm =
      link_entity_path "xx" modelBase lArm :=
  ⟨rfl, (c7_link_entity_path_spec "xx" modelBase lArm).1,
   (c7_link_entity_path_spec "xx" modelBase lArm).2 modelBase' rfl⟩

/-- Claim C8 (amended): for a visual whose geometry is not a mesh and whose
origin converts without raising (origin absent, or both fields present),
the export fails with the unsupported-geometry error —
`NotImplementedError("Only mesh geometries are supported.")` — and emits no
geometry or transform record; when the origin is present with a missing
field, the `UnboundLocalError` of the origin conversion is raised first
(also before any emission). -/
theorem c8_unsupported_geometry (ext : Ext) (rootPath path : String)
    (visual : Visual) (hg : visual.geometry.isMesh = false)
    (ho : originConverts visual.origin = true) :
    log_visual ext rootPath path visual =
      ⟨[], some (.notImplementedError "Only mesh geometries are supported.")⟩ := by
  obtain ⟨g, o, m⟩ := visual
  have hok : ∃ t, origin_to_transform ext o = .ok t := by
    obtain _ | ⟨x, r⟩ := o
    · exact ⟨none, rfl⟩
    · obtain _ | xv := x <;> obtain _ | rv := r <;>
        simp_all [originConverts, origin_to_transform]
  obtain ⟨t, ht⟩ := hok
  simp only [log_visual, ht]
  cases g with
  | mesh f s => simp [Geometry.isMesh] at hg
  | box => rfl
  | cylinder => rfl
  | sphere => rfl

/-- Claim C8 (counterexample): a non-mesh visual whose origin has only a
translation does not fail with the unsupported-geometry error — the origin
conversion's `UnboundLocalError` is raised first (no record is emitted
either way). -/
theorem c8_counterexample :
    vBoxBad.geometry.isMesh = false ∧
    log_visual extStub "r" "/p" vBoxBad =
      ⟨[], some (.unboundLocalError "rotation")⟩ ∧
    log_visual extStub "r" "/p" vBoxBad ≠
      ⟨[], some (.notImplementedError "Only mesh geometries are supported.")⟩ := by
  refine ⟨rfl, rfl, by decide⟩

/-- Claim C8 (witness): the amended theorem evaluated on a box-geometry
visual with no origin. -/
theorem c8_witness :
    vBoxOk.geometry.isMesh = false ∧ originConverts vBoxOk.origin = true ∧
    log_visual extStub "r" "/p" vBoxOk =
      ⟨[], some (.notImplementedError "Only mesh geometries are supported.")⟩ :=
  ⟨rfl, rfl, c8_unsupported_geometry extStub "r" "/p" vBoxOk rfl rfl⟩

/-- Claim C9: in randomized export mode (any mode string other than
`"Original"`), the exporter emits exactly one record per joint — the `i`-th
joint receives the `i`-th independent draw of the external random-rotation
sampler, logged raw at that joint's entity path — with no error, no origin
or motion transforms, and no link visual records. -/
theorem c9_randomized_mode (ext : Ext) (rootPath pfx : String)
    (model : URDFModel) (mode : String) (h : mode ≠ "Original") :
    logModel ext rootPath pfx model mode =
      ⟨model.joints.enum.map
        (fun p => .raw (joint_entity_path pfx model p.2) (ext.randomRot p.1)),
       none⟩ ∧
    (logModel ext rootPath pfx model mode).records.length =
      model.joints.length ∧
    ∀ i, (hi : i < model.joints.length) →
      (logModel ext rootPath pfx model mode).records.get? i =
        some (.raw (joint_entity_path pfx model (model.joints.get ⟨i, hi⟩))
          (ext.randomRot i)) := by
  have hm : logModel ext rootPath pfx model mode =
      ⟨model.joints.enum.map
        (fun p => .raw (joint_entity_path pfx model p.2) (ext.randomRot p.1)),
       none⟩ := by
    simp only [logModel, if_neg h]
  refine ⟨hm, ?_, ?_⟩
  · rw [hm]
    simp [List.enum_length]
  · intro i hi
    rw [hm]
    simp [List.getElem?_map, List.getElem?_enum, List.get?_eq_get hi]
    exact ⟨model.joints[i], List.getElem?_eq_getElem hi, rfl⟩

/-- Claim C9 (witness): the randomized mode evaluated on the concrete
one-joint model. -/
theorem c9_witness :
    ("Random" ≠ "Original") ∧
    logModel extStub "r" "" modelBase "Random" =
      ⟨[.raw (joint_entity_path "" modelBase jC1) (extStub.randomRot 0)],
       none⟩ :=
  ⟨by decide,
   (c9_randomized_mode extStub "r" "" modelBase "Random" (by decide)).1⟩

/-- Claim C10 (amended): for a visual with mesh geometry whose file the
loader resolves to a multi-mesh scene, provided the origin converts without
raising, the export fails with
`NotImplementedError("Only single mesh geometries are supported.")` and
emits no geometry or transform record; the material-application step is
never reached, and an origin with a missing field raises its
`UnboundLocalError` before the mesh is even considered. -/
theorem c10_scene_mesh (ext : Ext) (rootPath path : String) (visual : Visual)
    (filename : String) (mscale : Option Vec3) (tag : String)
    (hg : visual.geometry = .mesh filename mscale)
    (ho : originConverts visual.origin = true)
    (hl : ext.loadMesh (rootPath ++ "/" ++ filename) = .scene tag) :
    log_visual ext rootPath path visual =
      ⟨[], some (.notImplementedError "Only single mesh geometries are supported.")⟩ := by
  obtain ⟨g, o, m⟩ := visual
  have hok : ∃ t, origin_to_transform ext o = .ok t := by
    obtain _ | ⟨x, r⟩ := o
    · exact ⟨none, rfl⟩
    · obtain _ | xv := x <;> obtain _ | rv := r <;>
        simp_all [originConverts, origin_to_transform]
  obtain ⟨t, ht⟩ := hok
  simp only at hg
  subst hg
  simp only [log_visual, ht, hl]

/-- Claim C10 (counterexample): a mesh-geometry visual whose file loads as
a multi-mesh scene but whose origin has only a translation fails with the
origin conversion's `UnboundLocalError`, not with the single-mesh error the
claim states. -/
theorem c10_counterexample :
    extScene.loadMesh ("r" ++ "/" ++ "m.obj") = .scene "multi" ∧
    log_visual extScene "r" "/p" vMeshBad =
      ⟨[], some (.unboundLocalError "rotation")⟩ ∧
    log_visual extScene "r" "/p" vMeshBad ≠
      ⟨[], some (.notImplementedError "Only single mesh geometries are supported.")⟩ := by
  refine ⟨rfl, rfl, by decide⟩

/-- Claim C10 (witness): the amended theorem evaluated on a mesh visual
with no origin under the scene-resolving loader. -/
theorem c10_witness :
    vMeshOk.geometry = .mesh "m.obj" none ∧
    originConverts vMeshOk.origin = true ∧
    extScene.loadMesh ("r" ++ "/" ++ "m.obj") = .scene "multi" ∧
    log_visual extScene "r" "/p" vMeshOk =
      ⟨[], some (.notImplementedError "Only single mesh geometries are supported.")⟩ :=
  ⟨rfl, rfl, rfl,
   c10_scene_mesh extScene "r" "/p" vMeshOk "m.obj" none "multi" rfl rfl rfl⟩

end LoadToRerun
